import Mathlib

/-!
Verification of the Zava clothing-concept evaluation pipeline.

This file gives a shallow embedding, in Lean 4, of the orchestration-relevant
parts of the repository (src/core/approval.py, src/core/executors.py,
src/core/workflow_manager.py, src/backend.py) and proves or refutes the
behavioural claims made about them.  Python strings are modelled as Lean
strings; Python `str.strip` and `str.lower` are modelled character-wise;
Python dict insertion is modelled as an association list with in-place
replacement.
-/

namespace Zava

/-! ### Character and string helpers (model of Python string primitives) -/

/-- Model of Python `str.strip()` on a character list: drop whitespace from
both ends. -/
def stripChars (cs : List Char) : List Char :=
  ((cs.dropWhile Char.isWhitespace).reverse.dropWhile Char.isWhitespace).reverse

/-- Model of Python `str.strip()`. -/
def pyStrip (s : String) : String := String.mk (stripChars s.data)

/-- Model of Python `str.lower()` (ASCII case folding, which covers every
string literal the source compares against). -/
def pyLower (s : String) : String := String.mk (s.data.map Char.toLower)

/-- Substring test on character lists: model of Python `needle in haystack`. -/
def containsSub (needle : List Char) : List Char → Bool
  | [] => needle.isEmpty
  | c :: t => needle.isPrefixOf (c :: t) || containsSub needle t

/-- Numeric value of a digit run, as Python `int()` computes it. -/
def digitsToNat (ds : List Char) : Nat :=
  ds.foldl (fun n c => n * 10 + (c.toNat - 48)) 0

/-! ### src/core/approval.py -/

/-- `ClothingConceptApprovalRequest` (approval.py lines 21-32): question,
context and the full analysis text carried alongside. -/
structure ClothingConceptApprovalRequest where
  question : String
  context : String
  analysis_content : String
deriving DecidableEq, Repr

/-- `ZavaApprovalDecision` (approval.py lines 55-66). -/
structure ZavaApprovalDecision where
  approved : Bool
  feedback : String
  analysis_content : String
deriving DecidableEq, Repr

/-- The approval token list from approval.py line 160. -/
def approvalTokens : List String := ["yes", "y", "approve", "approved"]

/-- The rejection token list from approval.py line 274. -/
def rejectionTokens : List String := ["no", "n", "reject", "rejected", "deny", "denied"]

/-- The fixed question text built in `start_approval` (approval.py line 124). -/
def approvalQuestion : String :=
  "Based on the comprehensive fashion analysis above, should Zava approve this clothing concept for development?"

/-- The fixed `approval_context` template built in `start_approval`
(approval.py lines 105-121, after `.strip()`).  It does not depend on the
analysis text. -/
def approvalContextTemplate : String :=
  "COMPREHENSIVE CLOTHING CONCEPT ANALYSIS SUMMARY\n\nThe fashion analysis agents have completed their evaluation of this clothing concept\nsubmission. Below is the consolidated analysis covering market potential, design merit,\nand production feasibility:\n\nKEY DECISION FACTORS:\n• Market alignment with current fashion trends\n• Design innovation and brand fit with Zava\n• Production feasibility and cost considerations\n• Competitive differentiation potential\n• Strategic alignment with company goals\n\nThis decision will determine whether Zava proceeds with concept development\nor provides constructive feedback for future submissions."

/-- `ZavaConceptApprovalManager.start_approval` (approval.py lines 85-134):
builds the approval request sent to the human approver.  The `context` is the
fixed template; the raw analysis is stored in `analysis_content`; a falsy
(empty) analysis becomes the placeholder text. -/
def start_approval (analysisResults : String) : ClothingConceptApprovalRequest :=
  let analysisText := if analysisResults = "" then "No analysis provided" else analysisResults
  { question := approvalQuestion
    context := approvalContextTemplate
    analysis_content := analysisText }

/-- The `RequestResponse` shape consumed by `route_decision`: the raw human
input (`data`, possibly absent) and the original request. -/
structure RequestResponse where
  data : Option String
  original_request : Option ClothingConceptApprovalRequest

/-- `ZavaConceptApprovalManager.route_decision` (approval.py lines 136-177):
normalizes the raw human input by `(response.data or "").strip().lower()`,
tests membership in the approval token list, and builds the decision whose
`feedback` is the raw input. -/
def route_decision (response : RequestResponse) : ZavaApprovalDecision :=
  let humanInput := pyLower (pyStrip (response.data.getD ""))
  let approved := approvalTokens.contains humanInput
  let analysisContent :=
    match response.original_request with
    | some req => req.analysis_content
    | none => ""
  { approved := approved
    feedback := response.data.getD ""
    analysis_content := analysisContent }

/-- The shapes of value the condition functions in approval.py probe for, in
the order the source checks them: an object with a `.data` attribute
(optionally nesting another response), a plain string, a
`ZavaApprovalDecision`, a `ClothingConceptApprovalRequest`, any other object
with an `approved` attribute, or something unknown. -/
inductive CondInput where
  | withData (data : String) (nested : Option String)
  | str (s : String)
  | decision (d : ZavaApprovalDecision)
  | request (r : ClothingConceptApprovalRequest)
  | withApproved (b : Bool)
  | unknown

/-- `concept_approval_condition` (approval.py lines 181-244).  Note the
source normalizes with `.lower().strip()` in this function. -/
def concept_approval_condition : CondInput → Bool
  | CondInput.withData d nested =>
      let responseText := pyStrip (pyLower (match nested with | some nd => nd | none => d))
      approvalTokens.contains responseText
  | CondInput.str s => approvalTokens.contains (pyStrip (pyLower s))
  | CondInput.decision d => d.approved
  | CondInput.request _ => false
  | CondInput.withApproved b => b
  | CondInput.unknown => false

/-- `concept_rejection_condition` (approval.py lines 247-310); unknown types
default to `true` (reject) as a safety measure. -/
def concept_rejection_condition : CondInput → Bool
  | CondInput.withData d nested =>
      let responseText := pyStrip (pyLower (match nested with | some nd => nd | none => d))
      rejectionTokens.contains responseText
  | CondInput.str s => rejectionTokens.contains (pyStrip (pyLower s))
  | CondInput.decision d => !d.approved
  | CondInput.request _ => false
  | CondInput.withApproved b => !b
  | CondInput.unknown => true

/-! ### src/core/executors.py -/

/-- One entry of the `consolidated_analysis["components"]` dict
(executors.py lines 195-199). -/
structure Component where
  content : String
  length : Nat
  agent_id : String
deriving DecidableEq, Repr

/-- One normalized evaluator response as consumed by the consolidation loop
in `log_fashion_analysis_outputs`: the extracted output text and the optional
`executor_id` attribute. -/
structure AgentResponse where
  output : String
  executorId : Option String
deriving DecidableEq, Repr

/-- Keyword set for the market category (executors.py line 183). -/
def marketKeywords : List String := ["market", "trend", "consumer", "demand", "demographic"]

/-- Keyword set for the design category (executors.py line 186). -/
def designKeywords : List String := ["design", "aesthetic", "style", "color", "fabric", "material"]

/-- Keyword set for the production category (executors.py line 189). -/
def productionKeywords : List String := ["production", "manufacturing", "cost", "supply", "logistics"]

/-- Keyword set for the sustainability category (executors.py line 192). -/
def sustainabilityKeywords : List String := ["sustainability", "ethical", "environmental", "eco"]

/-- Model of `any(keyword in analysis_content.lower() for keyword in kws)`. -/
def containsAnyKeyword (text : String) (kws : List String) : Bool :=
  kws.any (fun k => containsSub k.data (pyLower text).data)

/-- The classification chain of `log_fashion_analysis_outputs`
(executors.py lines 166-193): the ordered keyword sets are tested against the
lower-cased content and the first match names the component; with no match
the positional default name from line 167 is kept. -/
def classifyComponent (i : Nat) (content : String) : String :=
  if containsAnyKeyword content marketKeywords then "market_trend_analysis"
  else if containsAnyKeyword content designKeywords then "design_evaluation"
  else if containsAnyKeyword content productionKeywords then "production_feasibility"
  else if containsAnyKeyword content sustainabilityKeywords then "sustainability_assessment"
  else "fashion_analysis_component_" ++ toString (i + 1)

/-- Python dict assignment `m[k] = v` on an insertion-ordered association
list: replace in place when the key exists, append otherwise. -/
def dictInsert (m : List (String × Component)) (k : String) (v : Component) :
    List (String × Component) :=
  if m.any (fun p => p.fst == k) then
    m.map (fun p => if p.fst == k then (k, v) else p)
  else m ++ [(k, v)]

/-- The per-response consolidation loop of `log_fashion_analysis_outputs`
(executors.py lines 166-203): strip each output, skip empty content, classify
and store content, length and agent id under the component name. -/
def consolidateGo (acc : List (String × Component)) (i : Nat) :
    List AgentResponse → List (String × Component)
  | [] => acc
  | r :: rest =>
    let content := pyStrip r.output
    if content = "" then consolidateGo acc (i + 1) rest
    else
      consolidateGo
        (dictInsert acc (classifyComponent i content)
          { content := content
            length := content.length
            agent_id := r.executorId.getD ("agent_" ++ toString (i + 1)) })
        (i + 1) rest

/-- The `components` mapping of the ConsolidatedResult built by
`log_fashion_analysis_outputs` over the settled evaluator responses. -/
def consolidateComponents (responses : List AgentResponse) : List (String × Component) :=
  consolidateGo [] 0 responses

/-- `WorkflowCompletedEvent` carrying the final outcome string. -/
structure WorkflowCompletedEvent where
  data : String
deriving DecidableEq, Repr

/-- `handle_approved_concept` (executors.py lines 534-546): always emits the
completion event with outcome "APPROVED". -/
def handle_approved_concept (_result : String) : WorkflowCompletedEvent :=
  { data := "APPROVED" }

/-- `handle_rejected_concept` (executors.py lines 549-561): always emits the
completion event with outcome "REJECTED". -/
def handle_rejected_concept (_result : String) : WorkflowCompletedEvent :=
  { data := "REJECTED" }

/-- The message `save_approved_concept_report` sends on success
(executors.py line 408). -/
def saveApprovedReportMessage : String := "APPROVED"

/-- The message `draft_concept_rejection_email` sends on success
(executors.py line 471). -/
def draftRejectionEmailMessage : String := "REJECTED"

/-- The conditional branch out of the approval manager
(workflow_manager.py lines 210-213): the decision is routed to the approved
finalize stage when `concept_approval_condition` holds and to the rejection
finalize stage when `concept_rejection_condition` holds, and each finalize
stage feeds its handler, which emits the completion event. -/
def finalizeEvents (d : ZavaApprovalDecision) : List WorkflowCompletedEvent :=
  (if concept_approval_condition (CondInput.decision d) then
    [handle_approved_concept saveApprovedReportMessage]
  else []) ++
  (if concept_rejection_condition (CondInput.decision d) then
    [handle_rejected_concept draftRejectionEmailMessage]
  else [])

/-! ### src/core/workflow_manager.py -/

/-- Rate-limit signature test from `_execute_workflow_with_retry`
(workflow_manager.py line 138): the lowered failure text contains
"rate limit". -/
def rateLimited (msg : String) : Bool :=
  containsSub "rate limit".data (pyLower msg).data

/-- Attempt to match the pattern "try again in (digits) seconds" at the head
of the character list, as the regex on workflow_manager.py line 140 does at
one position. -/
def waitAt (cs : List Char) : Option Nat :=
  let pat := "try again in ".data
  if pat.isPrefixOf cs then
    let rest := cs.drop pat.length
    let ds := rest.takeWhile Char.isDigit
    if ds.isEmpty then none
    else if (" seconds".data).isPrefixOf (rest.drop ds.length) then some (digitsToNat ds)
    else none
  else none

/-- Leftmost match of the wait pattern: model of
`re.search(r'try again in (\d+) seconds', error_str.lower())`. -/
def scanWait : List Char → Option Nat
  | [] => none
  | c :: t =>
    match waitAt (c :: t) with
    | some n => some n
    | none => scanWait t

/-- Suggested wait extraction with the default of 30 seconds
(workflow_manager.py line 141). -/
def extractWaitSeconds (msg : String) : Nat :=
  (scanWait (pyLower msg).data).getD 30

/-- Observable trace of `_execute_workflow_with_retry`: the final result, the
number of attempts made, and the backoff sleeps performed (each already
including the 2-second buffer of workflow_manager.py line 145). -/
structure RetryTrace where
  result : Except String (List String)
  attempts : Nat
  sleeps : List Nat
deriving Repr

/-- The `for attempt in range(max_retries)` loop of
`_execute_workflow_with_retry` (workflow_manager.py lines 130-161): a
successful attempt returns its events; a rate-limited failure before the last
attempt sleeps `extractWaitSeconds + 2` and retries; a rate-limited failure on
the last attempt and any non-rate-limited failure are re-raised.  The fuel
argument counts the loop iterations left; an exhausted loop returns the empty
event list (line 161). -/
def executeWithRetryGo (run : Nat → Except String (List String)) (maxRetries : Nat) :
    Nat → Nat → RetryTrace
  | 0, _ => { result := Except.ok [], attempts := 0, sleeps := [] }
  | fuel + 1, attempt =>
    match run attempt with
    | Except.ok evs => { result := Except.ok evs, attempts := 1, sleeps := [] }
    | Except.error e =>
      if rateLimited e then
        if attempt < maxRetries - 1 then
          let rest := executeWithRetryGo run maxRetries fuel (attempt + 1)
          { result := rest.result
            attempts := rest.attempts + 1
            sleeps := (extractWaitSeconds e + 2) :: rest.sleeps }
        else { result := Except.error e, attempts := 1, sleeps := [] }
      else { result := Except.error e, attempts := 1, sleeps := [] }

/-- `_execute_workflow_with_retry` with its default `max_retries = 3`. -/
def executeWorkflowWithRetry (run : Nat → Except String (List String)) : RetryTrace :=
  executeWithRetryGo run 3 3 0

/-- The `(step, progress)` updates emitted by
`build_concept_evaluation_workflow` on its success path
(workflow_manager.py lines 171-216), in order. -/
def buildProgressUpdates : List (String × Nat) :=
  [("Building Zava concept workflow...", 5),
   ("Initializing AI agents...", 10),
   ("Creating fashion analysis agents...", 15),
   ("Creating concurrent fashion analysis workflow...", 20),
   ("Setting up concurrent subworkflow executor...", 22),
   ("Setting up approval workflow...", 25),
   ("Assembling workflow components...", 30),
   ("Zava concept workflow ready", 35)]

/-- The `workflow_steps` table (workflow_manager.py lines 93-123): executor
id, display name and progress percent, in declaration order. -/
def workflowSteps : List (String × String × Nat) :=
  [("clothing_concept_parser", "Parse Clothing Concept", 15),
   ("concept_input_adapter", "Prepare Fashion Analysis", 25),
   ("concurrent_fashion_analysis", "Concurrent Fashion Analysis", 50),
   ("concurrent_fashion_analysis_logger", "Generate Analysis Report", 60),
   ("concept_report_writer_agent", "Create Executive Report", 80),
   ("convert_report_to_approval_request", "Prepare Approval Request", 85),
   ("zava_human_approver", "Human Review", 90)]

/-- The progress percentages a subscriber observes during a successful run of
`analyze_clothing_concept`: the build-phase updates (lines 171-216), then the
initial "Parse Clothing Concept" update at 15 (line 255), then the tracked
step updates of `_track_workflow_progress` in pipeline order (each executor id
fires once), the "Human Review" update at 90 on the approval request
(line 350), and the final "Save Results" update at 100 (line 327). -/
def successfulRunProgressUpdates : List Nat :=
  (buildProgressUpdates.map Prod.snd) ++ [15] ++
    (workflowSteps.map (fun s => s.snd.snd)) ++ [90, 100]

/-- Bool-valued test that a list of percentages is non-decreasing. -/
def nonDecreasingB : List Nat → Bool
  | [] => true
  | [_] => true
  | a :: b :: t => decide (a ≤ b) && nonDecreasingB (b :: t)

/-- `send_approval_decision` (workflow_manager.py lines 417-431): the payload
delivered to the workflow is the decision string, with the stripped feedback
appended after a newline when the stripped feedback is non-empty. -/
def sendApprovalDecisionPayload (decision feedback : String) : String :=
  if pyStrip feedback = "" then decision
  else decision ++ "\n" ++ pyStrip feedback

/-- The two ways `_wait_for_approval_decision` can finish: the approval event
fires with the stored response, or `asyncio.wait_for` times out. -/
inductive WaitOutcome where
  | resolved (resp : Option String)
  | timedOut

/-- The warning output logged on the timeout path
(workflow_manager.py line 524). -/
def timeoutWarning : String := "Approval timeout - defaulting to reject"

/-- `_wait_for_approval_decision` (workflow_manager.py lines 515-525): on the
resolved path it returns `self.approval_response or "no"`; on timeout it logs
the warning output and returns "no".  The returned pair is the decision
string and the optional warning output. -/
def waitForApprovalDecision : WaitOutcome → String × Option String
  | WaitOutcome.resolved r =>
      (match r with
       | some s => if s = "" then "no" else s
       | none => "no", none)
  | WaitOutcome.timedOut => ("no", some timeoutWarning)

/-! ### src/backend.py -/

/-- `ConceptAnalysisStatus` (backend.py lines 28-42).  Step and output
entries are kept opaque. -/
structure ConceptAnalysisStatus where
  status : String
  progress : Nat
  current_step : String
  steps : List String
  outputs : List String
  approval_request : Option String
  error : Option String
deriving DecidableEq, Repr

/-- The 400 detail raised when an analysis is already running
(backend.py line 252). -/
def alreadyRunningDetail : String := "Fashion analysis already in progress"

/-- The message recorded when the generic handler of
`start_concept_analysis` catches the already-running guard: the guard's
`HTTPException` stringifies as "status: detail" and is wrapped by line 284. -/
def startCaughtMessage : String :=
  "Failed to start concept analysis: 400: Fashion analysis already in progress"

/-- The success message of `start_concept_analysis` (backend.py line 281). -/
def startOkMessage : String := "Zava fashion analysis workflow started successfully"

/-- `start_concept_analysis` (backend.py lines 229-293) as a transition on
the published status.  When the status is "running" the guard raises a 400,
which the surrounding generic handler catches: it sets the status to "error",
records the message, and re-raises as a 500.  For any other status the run
state is reset and the analysis task is started. -/
def start_concept_analysis (st : ConceptAnalysisStatus) :
    Except (Nat × String) String × ConceptAnalysisStatus :=
  if st.status == "running" then
    (Except.error (500, startCaughtMessage),
     { st with status := "error", error := some startCaughtMessage })
  else
    (Except.ok startOkMessage,
     { st with
        status := "running"
        progress := 0
        current_step := "Initializing fashion analysis workflow..."
        steps := []
        outputs := []
        error := none
        approval_request := none })

/-! ### Helper lemmas -/

/-- The head of a non-empty `dropWhile` result does not satisfy the
predicate. -/
theorem dropWhile_head_false (p : Char → Bool) :
    ∀ (l : List Char) (b : Char) (bt : List Char), l.dropWhile p = b :: bt → p b = false := by
  intro l
  induction l with
  | nil => intro b bt h; simp [List.dropWhile] at h
  | cons a l ih =>
    intro b bt h
    cases hpa : p a with
    | true => rw [List.dropWhile_cons_of_pos hpa] at h; exact ih b bt h
    | false =>
      rw [List.dropWhile_cons_of_neg (by simp [hpa])] at h
      cases h
      exact hpa

/-- A non-empty `dropWhile` result is a fixed point of `dropWhile`, even
after appending. -/
theorem dropWhile_fixed_append (p : Char → Bool) (l rest : List Char)
    (h : l.dropWhile p ≠ []) :
    (l.dropWhile p ++ rest).dropWhile p = l.dropWhile p ++ rest := by
  obtain ⟨b, bt, hb⟩ := List.exists_cons_of_ne_nil h
  rw [hb, List.cons_append, List.dropWhile_cons_of_neg (by simp [dropWhile_head_false p l b bt hb])]

/-- Stripping the payload `"yes\n" ++ strippedFeedback` changes nothing:
the head is not whitespace and the tail is already stripped. -/
theorem stripChars_yes_payload (u : List Char) (hne : stripChars u ≠ []) :
    stripChars ('y' :: 'e' :: 's' :: '\n' :: stripChars u) =
      'y' :: 'e' :: 's' :: '\n' :: stripChars u := by
  have hrevne : ((u.dropWhile Char.isWhitespace).reverse).dropWhile Char.isWhitespace ≠ [] := by
    intro h0
    apply hne
    simp [stripChars, h0]
  show ((('y' :: 'e' :: 's' :: '\n' :: stripChars u).dropWhile
      Char.isWhitespace).reverse.dropWhile Char.isWhitespace).reverse =
    'y' :: 'e' :: 's' :: '\n' :: stripChars u
  rw [List.dropWhile_cons_of_neg (by decide)]
  have h1 : ('y' :: 'e' :: 's' :: '\n' :: stripChars u).reverse
      = ((u.dropWhile Char.isWhitespace).reverse).dropWhile Char.isWhitespace ++ ['\n', 's', 'e', 'y'] := by
    simp [stripChars]
  rw [h1, dropWhile_fixed_append _ _ _ hrevne]
  simp [stripChars]

/-- No approval token starts with "yes" followed by a newline. -/
theorem tokens_not_yes_newline (rest : List Char) :
    approvalTokens.contains (String.mk ('y' :: 'e' :: 's' :: '\n' :: rest)) = false := by
  apply Bool.eq_false_iff.mpr
  intro hc
  have hmem : String.mk ('y' :: 'e' :: 's' :: '\n' :: rest) ∈ approvalTokens :=
    List.mem_of_elem_eq_true hc
  simp only [approvalTokens, List.mem_cons, List.not_mem_nil, or_false] at hmem
  rcases hmem with h | h | h | h <;>
    · have hd := congrArg String.data h
      simp [String.data] at hd

/-- A payload of the form `"yes\n" ++ strippedFeedback` with non-empty
stripped feedback is not approved by `route_decision`. -/
theorem approved_false_of_yes_payload (f : String) (h : pyStrip f ≠ "") :
    (route_decision { data := some ("yes" ++ "\n" ++ pyStrip f), original_request := none }).approved = false := by
  have hne : stripChars f.data ≠ [] := by
    intro hl
    apply h
    show String.mk (stripChars f.data) = ""
    rw [hl]
  have hdata : ("yes" ++ "\n" ++ pyStrip f).data = 'y' :: 'e' :: 's' :: '\n' :: stripChars f.data := rfl
  show approvalTokens.contains (pyLower (pyStrip ("yes" ++ "\n" ++ pyStrip f))) = false
  have hstrip : pyStrip ("yes" ++ "\n" ++ pyStrip f) =
      String.mk ('y' :: 'e' :: 's' :: '\n' :: stripChars f.data) := by
    show String.mk (stripChars ("yes" ++ "\n" ++ pyStrip f).data) = _
    rw [hdata, stripChars_yes_payload f.data hne]
  rw [hstrip]
  have hlow : pyLower (String.mk ('y' :: 'e' :: 's' :: '\n' :: stripChars f.data)) =
      String.mk ('y' :: 'e' :: 's' :: '\n' :: (stripChars f.data).map Char.toLower) := rfl
  rw [hlow]
  exact tokens_not_yes_newline _

/-- `dictInsert` preserves distinctness of the keys. -/
theorem dictInsert_keys_nodup (m : List (String × Component)) (k : String) (v : Component)
    (h : (m.map Prod.fst).Nodup) : ((dictInsert m k v).map Prod.fst).Nodup := by
  unfold dictInsert
  by_cases hk : m.any (fun p => p.fst == k) = true
  · rw [if_pos hk]
    have hkeys : (m.map (fun p => if p.fst == k then (k, v) else p)).map Prod.fst = m.map Prod.fst := by
      rw [List.map_map]
      apply List.map_congr_left
      intro p _
      by_cases hpk : p.fst = k
      · subst hpk
        simp
      · simp [Function.comp_apply, beq_iff_eq, hpk]
    rw [hkeys]
    exact h
  · rw [if_neg hk]
    rw [List.map_append]
    rw [List.nodup_append]
    refine ⟨h, List.nodup_singleton k, ?_⟩
    intro x hx hxk
    simp only [List.map_cons, List.map_nil, List.mem_singleton] at hxk
    obtain ⟨p, hp, hpx⟩ := List.mem_map.mp hx
    apply hk
    have hbeq : (fun q : String × Component => q.fst == k) p = true := by
      simp [beq_iff_eq, hpx, hxk]
    exact List.any_eq_true.mpr ⟨p, hp, hbeq⟩

/-- The consolidation loop preserves distinctness of the component keys. -/
theorem consolidateGo_keys_nodup :
    ∀ (rs : List AgentResponse) (acc : List (String × Component)) (i : Nat),
      (acc.map Prod.fst).Nodup → ((consolidateGo acc i rs).map Prod.fst).Nodup := by
  intro rs
  induction rs with
  | nil => intro acc i h; simpa [consolidateGo] using h
  | cons r rest ih =>
    intro acc i h
    simp only [consolidateGo]
    by_cases hc : pyStrip r.output = ""
    · rw [if_pos hc]; exact ih _ _ h
    · rw [if_neg hc]; exact ih _ _ (dictInsert_keys_nodup _ _ _ h)

/-! ### Claim C1 -/

/-- Claim C1 (counterexample): the progress percentages reported over a run
are not monotonic non-decreasing.  `build_concept_evaluation_workflow` ends
its updates at 35 and the first update of `analyze_clothing_concept` then
reports 15, so the update sequence of a successful run contains 35 followed
by 15. -/
theorem progress_sequence_counterexample :
    nonDecreasingB successfulRunProgressUpdates = false ∧
    successfulRunProgressUpdates =
      [5, 10, 15, 20, 22, 25, 30, 35, 15, 15, 25, 50, 60, 80, 85, 90, 90, 100] := by
  decide

/-- Claim C1 (amended): within the workflow-build phase and within the
analysis phase that follows, the reported progress percentages are
non-decreasing, but the transition from the last build update (35) to the
first analysis update (15) decreases, so the full per-run sequence is not
monotonic. -/
theorem progress_monotone_within_phases :
    nonDecreasingB (buildProgressUpdates.map Prod.snd) = true ∧
    nonDecreasingB ([15] ++ (workflowSteps.map (fun s => s.snd.snd)) ++ [90, 100]) = true ∧
    nonDecreasingB successfulRunProgressUpdates = false := by
  decide

/-! ### Claim C2 -/

/-- Claim C2: `route_decision` yields approved = true exactly when the
trimmed, lower-cased raw input is one of the literal tokens yes, y, approve,
approved; every other input (including an absent one) yields
approved = false, and the input "YES" yields approved = true. -/
theorem approval_normalization_correct (resp : RequestResponse) :
    ((route_decision resp).approved = true ↔
      (pyLower (pyStrip (resp.data.getD "")) = "yes" ∨
       pyLower (pyStrip (resp.data.getD "")) = "y" ∨
       pyLower (pyStrip (resp.data.getD "")) = "approve" ∨
       pyLower (pyStrip (resp.data.getD "")) = "approved")) ∧
    (route_decision { data := some "YES", original_request := none }).approved = true := by
  constructor
  · simp [route_decision, approvalTokens]
  · decide

/-! ### Claim C3 -/

/-- A concrete published state in which a run is waiting for approval. -/
def waitingApprovalState : ConceptAnalysisStatus :=
  { status := "waiting_approval"
    progress := 90
    current_step := "Human Review"
    steps := ["step-record"]
    outputs := ["output-record"]
    approval_request := some "pending-request"
    error := none }

/-- Claim C3 (counterexample): a start request issued while the status is
"waiting_approval" does not fail with a "run already active" error — the
guard only checks for "running" — and the in-flight run's state is not left
unchanged: the request is accepted and resets the run, discarding the
pending approval request. -/
theorem start_while_waiting_approval_counterexample :
    (start_concept_analysis waitingApprovalState).fst = Except.ok startOkMessage ∧
    (start_concept_analysis waitingApprovalState).snd ≠ waitingApprovalState ∧
    (start_concept_analysis waitingApprovalState).snd.approval_request = none ∧
    waitingApprovalState.approval_request = some "pending-request" := by
  refine ⟨rfl, by decide, rfl, rfl⟩

/-- Claim C3 (amended): only a start request issued while the status is
"running" fails (it raises the "Fashion analysis already in progress" guard,
which the generic failure handler converts to a 500 and, as a side effect,
records on the published state by setting the status to "error"); the new
request is never queued.  A start request issued while the status is
"waiting_approval" is accepted and resets the run's state. -/
theorem start_while_active_behaviour (st : ConceptAnalysisStatus) :
    (st.status = "running" →
      (start_concept_analysis st).fst = Except.error (500, startCaughtMessage) ∧
      (start_concept_analysis st).snd =
        { st with status := "error", error := some startCaughtMessage }) ∧
    (st.status = "waiting_approval" →
      (start_concept_analysis st).fst = Except.ok startOkMessage ∧
      (start_concept_analysis st).snd =
        { st with
            status := "running"
            progress := 0
            current_step := "Initializing fashion analysis workflow..."
            steps := []
            outputs := []
            error := none
            approval_request := none }) := by
  constructor
  · intro h
    simp [start_concept_analysis, h]
  · intro h
    simp [start_concept_analysis, h]

/-- Witness for `start_while_active_behaviour` at two concrete states. -/
theorem start_while_active_behaviour_witness :
    (start_concept_analysis
      { status := "running", progress := 50, current_step := "x", steps := [],
        outputs := [], approval_request := none, error := none }).snd.status = "error" ∧
    (start_concept_analysis waitingApprovalState).snd.status = "running" := by
  constructor
  · have h := (start_while_active_behaviour
      { status := "running", progress := 50, current_step := "x", steps := [],
        outputs := [], approval_request := none, error := none }).1 rfl
    rw [h.2]
  · have h := (start_while_active_behaviour waitingApprovalState).2 rfl
    rw [h.2]

/-! ### Claim C4 -/

/-- Claim C4: for a failure whose text carries the rate-limit signature the
retry loop sleeps the suggested wait plus a 2-second margin before each
retry and makes at most 3 attempts, surfacing the last failure after the
third rate-limited attempt; a failure without the signature is re-raised
immediately with no retry and no sleep; the suggested wait is extracted from
"try again in N seconds" and defaults to 30 when the pattern is absent. -/
theorem retry_policy_correct :
    (∀ m : String, rateLimited m = true →
      executeWorkflowWithRetry (fun _ => Except.error m) =
        { result := Except.error m, attempts := 3,
          sleeps := [extractWaitSeconds m + 2, extractWaitSeconds m + 2] }) ∧
    (∀ (run : Nat → Except String (List String)) (m : String),
      run 0 = Except.error m → rateLimited m = false →
      executeWorkflowWithRetry run = { result := Except.error m, attempts := 1, sleeps := [] }) ∧
    rateLimited "Rate limit exceeded. Please try again in 5 seconds." = true ∧
    extractWaitSeconds "Rate limit exceeded. Please try again in 5 seconds." = 5 ∧
    rateLimited "Rate limit exceeded, slow down." = true ∧
    extractWaitSeconds "Rate limit exceeded, slow down." = 30 := by
  refine ⟨?_, ?_, by decide, by decide, by decide, by decide⟩
  · intro m h
    simp [executeWorkflowWithRetry, executeWithRetryGo, h]
  · intro run m h0 hn
    simp [executeWorkflowWithRetry, executeWithRetryGo, h0, hn]

/-- Witness for `retry_policy_correct`: a persistently rate-limited stream
suggesting 5 seconds sleeps 7 seconds twice and fails after 3 attempts; a
non-rate-limited failure is re-raised at once. -/
theorem retry_policy_correct_witness :
    executeWorkflowWithRetry
        (fun _ => Except.error "Rate limit exceeded. Please try again in 5 seconds.") =
      { result := Except.error "Rate limit exceeded. Please try again in 5 seconds.",
        attempts := 3, sleeps := [7, 7] } ∧
    executeWorkflowWithRetry (fun _ => Except.error "parse failure") =
      { result := Except.error "parse failure", attempts := 1, sleeps := [] } := by
  constructor
  · have e : extractWaitSeconds "Rate limit exceeded. Please try again in 5 seconds." = 5 := by
      decide
    have h := retry_policy_correct.1 "Rate limit exceeded. Please try again in 5 seconds."
      (by decide)
    rw [e] at h
    exact h
  · exact retry_policy_correct.2.1 (fun _ => Except.error "parse failure") "parse failure"
      rfl (by decide)

/-! ### Claim C5 -/

/-- Claim C5 (counterexample): the decision synthesized after an approval
timeout does not carry feedback noting the timeout.  The wait returns the
literal input "no", so the normalized decision's feedback is exactly "no",
which does not mention a timeout (the timeout note goes to the output log
instead). -/
theorem approval_timeout_feedback_counterexample :
    (waitForApprovalDecision WaitOutcome.timedOut).fst = "no" ∧
    route_decision { data := some (waitForApprovalDecision WaitOutcome.timedOut).fst,
                     original_request := none } =
      { approved := false, feedback := "no", analysis_content := "" } ∧
    containsSub (pyLower "timeout").data (pyLower "no").data = false := by
  decide

/-- Claim C5 (amended): an approval wait that times out returns the
rejection input "no" while logging a warning output that notes the timeout;
the normalized decision is a rejection (approved = false, feedback "no"),
the run takes the rejection branch to the "REJECTED" completion event, and
the timeout is not surfaced as an error. -/
theorem approval_timeout_behaviour :
    waitForApprovalDecision WaitOutcome.timedOut = ("no", some timeoutWarning) ∧
    containsSub (pyLower "timeout").data (pyLower timeoutWarning).data = true ∧
    (route_decision { data := some "no", original_request := none }).approved = false ∧
    finalizeEvents (route_decision { data := some "no", original_request := none }) =
      [{ data := "REJECTED" }] := by
  decide

/-! ### Claim C6 -/

/-- Claim C6: fan-in classification tests the ordered keyword sets (market,
design, production, sustainability) against the lower-cased output text and
assigns the category of the first matching set; an output matching no set
keeps the positional fallback label "fashion_analysis_component_N" with N
its 1-based position; a batch of non-empty outputs matching no keywords
still yields a consolidated result with one positional component per
output. -/
theorem fanin_classification_correct :
    (∀ (i : Nat) (content : String),
      containsAnyKeyword content marketKeywords = true →
        classifyComponent i content = "market_trend_analysis") ∧
    (∀ (i : Nat) (content : String),
      containsAnyKeyword content marketKeywords = false →
      containsAnyKeyword content designKeywords = true →
        classifyComponent i content = "design_evaluation") ∧
    (∀ (i : Nat) (content : String),
      containsAnyKeyword content marketKeywords = false →
      containsAnyKeyword content designKeywords = false →
      containsAnyKeyword content productionKeywords = true →
        classifyComponent i content = "production_feasibility") ∧
    (∀ (i : Nat) (content : String),
      containsAnyKeyword content marketKeywords = false →
      containsAnyKeyword content designKeywords = false →
      containsAnyKeyword content productionKeywords = false →
      containsAnyKeyword content sustainabilityKeywords = true →
        classifyComponent i content = "sustainability_assessment") ∧
    (∀ (i : Nat) (content : String),
      containsAnyKeyword content marketKeywords = false →
      containsAnyKeyword content designKeywords = false →
      containsAnyKeyword content productionKeywords = false →
      containsAnyKeyword content sustainabilityKeywords = false →
        classifyComponent i content = "fashion_analysis_component_" ++ toString (i + 1)) ∧
    consolidateComponents
        [{ output := "aaa", executorId := none },
         { output := "bbb", executorId := none },
         { output := "ccc", executorId := none }] =
      [("fashion_analysis_component_1", { content := "aaa", length := 3, agent_id := "agent_1" }),
       ("fashion_analysis_component_2", { content := "bbb", length := 3, agent_id := "agent_2" }),
       ("fashion_analysis_component_3", { content := "ccc", length := 3, agent_id := "agent_3" })] := by
  refine ⟨?_, ?_, ?_, ?_, ?_, by decide⟩
  · intro i content h
    simp [classifyComponent, h]
  · intro i content h1 h2
    simp [classifyComponent, h1, h2]
  · intro i content h1 h2 h3
    simp [classifyComponent, h1, h2, h3]
  · intro i content h1 h2 h3 h4
    simp [classifyComponent, h1, h2, h3, h4]
  · intro i content h1 h2 h3 h4
    simp [classifyComponent, h1, h2, h3, h4]

/-- Witness for `fanin_classification_correct`: a market-flavoured output is
labelled market_trend_analysis; a keyword-free output at position 2 keeps
the positional fallback label. -/
theorem fanin_classification_correct_witness :
    classifyComponent 0 "strong market potential" = "market_trend_analysis" ∧
    classifyComponent 1 "zzz" = "fashion_analysis_component_2" := by
  constructor
  · exact fanin_classification_correct.1 0 "strong market potential" (by decide)
  · exact fanin_classification_correct.2.2.2.2.1 1 "zzz"
      (by decide) (by decide) (by decide) (by decide)

/-! ### Claim C7 -/

/-- Claim C7 (counterexample): for the raw input "no\nneeds more detail",
the decision's feedback field is the whole raw input, decision token
included, not just "needs more detail". -/
theorem rejection_feedback_counterexample :
    sendApprovalDecisionPayload "no" "needs more detail" = "no\nneeds more detail" ∧
    (route_decision { data := some "no\nneeds more detail",
                      original_request := none }).feedback = "no\nneeds more detail" ∧
    (route_decision { data := some "no\nneeds more detail",
                      original_request := none }).feedback ≠ "needs more detail" := by
  decide

/-- Claim C7 (amended): submitting decision "no" with feedback "needs more
detail" delivers the raw input "no\nneeds more detail"; the resulting
decision has approved = false and feedback equal to that whole raw input;
the run takes the rejection branch (the rejection edge condition holds, the
approval edge condition does not) and the completion event's outcome is
"REJECTED". -/
theorem rejection_flow_behaviour :
    route_decision { data := some (sendApprovalDecisionPayload "no" "needs more detail"),
                     original_request := none } =
      { approved := false, feedback := "no\nneeds more detail", analysis_content := "" } ∧
    concept_rejection_condition
      (CondInput.decision
        { approved := false, feedback := "no\nneeds more detail", analysis_content := "" }) = true ∧
    concept_approval_condition
      (CondInput.decision
        { approved := false, feedback := "no\nneeds more detail", analysis_content := "" }) = false ∧
    finalizeEvents
      { approved := false, feedback := "no\nneeds more detail", analysis_content := "" } =
      [{ data := "REJECTED" }] := by
  decide

/-! ### Claim C8 -/

/-- A concrete consolidated analysis text longer than the claimed 2,000
character cap. -/
def longAnalysis : String := String.mk (List.replicate 2500 'z')

set_option maxRecDepth 100000 in
/-- Claim C8 (counterexample): the approval request's context is not a
bounded excerpt of the consolidated analysis.  For an analysis of 2,500
characters the context is the fixed boilerplate template, which shares no
character with the analysis (the analysis is all 'z', the template contains
no 'z') and does not end with a truncation marker. -/
theorem approval_context_counterexample :
    longAnalysis.length = 2500 ∧
    2000 < longAnalysis.length ∧
    (start_approval longAnalysis).context = approvalContextTemplate ∧
    containsSub ['z'] (start_approval longAnalysis).context.data = false ∧
    ("...".data).isSuffixOf (start_approval longAnalysis).context.data = false := by
  have hlen : longAnalysis.length = 2500 := by
    show (List.replicate 2500 'z').length = 2500
    simp
  have hctx : (start_approval longAnalysis).context = approvalContextTemplate := rfl
  refine ⟨hlen, by rw [hlen]; norm_num, hctx, ?_, ?_⟩
  · rw [hctx]
    decide
  · rw [hctx]
    decide

set_option maxRecDepth 100000 in
/-- Claim C8 (amended): the approval request's context is a fixed
boilerplate summary, independent of the consolidated analysis; its length is
a constant under 2,000 characters, so the cap is respected vacuously, but no
excerpting or truncation of the analysis ever happens — the full analysis is
carried unbounded in the separate analysis_content field (with a placeholder
when the analysis is empty). -/
theorem approval_context_behaviour (a : String) :
    (start_approval a).context = approvalContextTemplate ∧
    (start_approval a).context.length ≤ 2000 ∧
    (start_approval a).question = approvalQuestion ∧
    (start_approval a).analysis_content = (if a = "" then "No analysis provided" else a) := by
  have hctx : (start_approval a).context = approvalContextTemplate := rfl
  refine ⟨hctx, ?_, rfl, rfl⟩
  rw [hctx]
  decide

/-! ### Claim C9 -/

/-- Claim C9 (counterexample): with decision "yes" and the non-empty
feedback " ", the delivered value is just "yes" (not "yes" + newline + " "),
and the resulting decision has approved = true, not false. -/
theorem feedback_concat_counterexample :
    (" " : String) ≠ "" ∧
    sendApprovalDecisionPayload "yes" " " = "yes" ∧
    sendApprovalDecisionPayload "yes" " " ≠ "yes" ++ "\n" ++ " " ∧
    (route_decision { data := some (sendApprovalDecisionPayload "yes" " "),
                      original_request := none }).approved = true := by
  decide

/-- Claim C9 (amended): for decision d and feedback f whose stripped form is
non-empty, the value delivered to decision normalization is
d + "\n" + strip(f); the whole concatenated string is compared against the
approval token set, so decision "yes" with feedback of non-empty stripped
form yields approved = false.  (Feedback that strips to empty appends
nothing, so "yes" with whitespace-only feedback is approved.) -/
theorem feedback_concat_behaviour (d f : String) (h : pyStrip f ≠ "") :
    sendApprovalDecisionPayload d f = d ++ "\n" ++ pyStrip f ∧
    (route_decision { data := some (sendApprovalDecisionPayload "yes" f),
                      original_request := none }).approved = false := by
  have hpay : ∀ e : String, sendApprovalDecisionPayload e f = e ++ "\n" ++ pyStrip f := by
    intro e
    simp [sendApprovalDecisionPayload, h]
  refine ⟨hpay d, ?_⟩
  rw [hpay "yes"]
  exact approved_false_of_yes_payload f h

/-- Witness for `feedback_concat_behaviour` at decision "yes" and feedback
" needs more detail ". -/
theorem feedback_concat_behaviour_witness :
    sendApprovalDecisionPayload "yes" " needs more detail " = "yes" ++ "\n" ++ "needs more detail" ∧
    (route_decision { data := some (sendApprovalDecisionPayload "yes" " needs more detail "),
                      original_request := none }).approved = false := by
  have h := feedback_concat_behaviour "yes" " needs more detail " (by decide)
  exact ⟨h.1, h.2⟩

/-! ### Claim C10 -/

/-- Claim C10: the consolidated result holds at most one component per
category label — the component keys are always pairwise distinct — and a
later output classified to the same category overwrites the earlier one, so
the component count can be strictly smaller than the number of non-empty
outputs: two market-flavoured outputs yield a single component carrying the
second output's content and agent id. -/
theorem consolidated_overwrite_per_category :
    (∀ responses : List AgentResponse,
      ((consolidateComponents responses).map Prod.fst).Nodup) ∧
    consolidateComponents
        [{ output := "market one", executorId := none },
         { output := "market two", executorId := none }] =
      [("market_trend_analysis",
        { content := "market two", length := 10, agent_id := "agent_2" })] ∧
    (consolidateComponents
        [{ output := "market one", executorId := none },
         { output := "market two", executorId := none }]).length = 1 := by
  refine ⟨?_, by decide, by decide⟩
  intro rs
  exact consolidateGo_keys_nodup rs [] 0 (by simp)

end Zava
